import Mathlib

/-
Verification of the encrypted key-store subsystem of Brambl-JS
(src/modules/KeyManager.js): key derivation, cipher and MAC engines,
the keystore codec (marshal / recover), and the KeyManager lock-state
machine.

The JavaScript code consumes external cryptographic libraries
(crypto.scryptSync, keccak, blake2, curve25519-js, base-58, and the
Node cipher provider).  Those externals are modelled by the
`Primitives` structure below: each library call becomes an abstract
function field, and the two algebraic facts the code relies on are
carried as laws of the structure (base-58 decode inverts encode, and a
supported cipher's decrypt inverts its encrypt with the same key and
IV).  Everything else is a direct translation of the repository's own
code.  Buffers are byte lists, JavaScript strings are Lean strings,
thrown Error values are the `Except.error` branch carrying the thrown
message, and the nondeterministic inputs (crypto.randomBytes, the
clock) are passed in as explicit arguments.
-/

set_option maxRecDepth 8192

/-- One byte of a Node.js Buffer. -/
abbrev Byte := Fin 256

/-- A Node.js Buffer: a sequence of bytes. -/
abbrev Bytes := List Byte

/-- Scrypt cost parameters (the `scrypt` block of `defaultOptions`). -/
structure ScryptParams where
  dkLen : Nat
  n : Nat
  r : Nat
  p : Nat
deriving DecidableEq, Repr

/-- The module-level option object of KeyManager.js (`defaultOptions`
shape): cipher name, IV and key byte sizes, and KDF parameters. -/
structure Constants where
  cipher : String
  ivBytes : Nat
  keyBytes : Nat
  scrypt : ScryptParams
deriving DecidableEq, Repr

/-- `defaultOptions` of KeyManager.js: aes-256-ctr, 16-byte IV, 32-byte
key, scrypt with dkLen 32, n = 2^18, r = 8, p = 1. -/
def defaultOptions : Constants :=
  { cipher := "aes-256-ctr"
    ivBytes := 16
    keyBytes := 32
    scrypt := { dkLen := 32, n := 2 ^ 18, r := 8, p := 1 } }

/-- The external libraries consumed by KeyManager.js, abstracted: base-58
text codec, utf-8 encoding of strings, crypto.scryptSync, keccak-256,
blake2b-256, the runtime cipher provider (its list of cipher names and
the encrypt/decrypt transforms, each taking algorithm name, key, IV and
data), and curve25519-js key generation and signing.  The two laws are
the documented behaviour of those libraries: base-58 decoding inverts
encoding, and for any cipher the provider supports, decryption with the
same key and IV inverts encryption. -/
structure Primitives where
  b58encode : Bytes → String
  b58decode : String → Bytes
  utf8 : String → Bytes
  scrypt : Bytes → Bytes → ScryptParams → Bytes
  keccak256 : Bytes → Bytes
  blake2b256 : Bytes → Bytes
  ciphers : List String
  cipherEnc : String → Bytes → Bytes → Bytes → Bytes
  cipherDec : String → Bytes → Bytes → Bytes → Bytes
  c25519gen : Bytes → Bytes × Bytes
  c25519sign : Bytes → Bytes → Bytes → Bytes
  b58_decode_encode : ∀ bs : Bytes, b58decode (b58encode bs) = bs
  cipher_dec_enc : ∀ (algo : String) (key iv m : Bytes),
    algo ∈ ciphers → cipherDec algo key iv (cipherEnc algo key iv m) = m

/-- `isCipherAvailable(cipher)`: crypto.getCiphers().some(name => name === cipher). -/
def isCipherAvailable (P : Primitives) (cipher : String) : Bool :=
  P.ciphers.any fun name => name == cipher

/-- Decidable equality for `Except` results, used to evaluate the
theorems on concrete inputs. -/
instance {e a : Type} [DecidableEq e] [DecidableEq a] : DecidableEq (Except e a)
  | .ok x, .ok y =>
    if h : x = y then .isTrue (congrArg Except.ok h)
    else .isFalse fun hh => h (Except.ok.inj hh)
  | .error x, .error y =>
    if h : x = y then .isTrue (congrArg Except.error h)
    else .isFalse fun hh => h (Except.error.inj hh)
  | .ok _, .error _ => .isFalse fun hh => Except.noConfusion hh
  | .error _, .ok _ => .isFalse fun hh => Except.noConfusion hh

/-- Result of `str2buf`: either a Buffer, or the original string passed
through unchanged.  `str2buf` returns its argument untouched when it is
not a string (call sites wrap such Buffers as `.buf`) and also when it
is a falsy string — the empty string — which is the `.pass` case. -/
inductive Str2bufRes where
  | buf (b : Bytes)
  | pass (s : String)
deriving DecidableEq, Repr

/-- `str2buf(str)` on a string with no encoding argument: a falsy
(empty) string is returned unchanged by the `!str` guard, any other
string is base-58 decoded into a Buffer. -/
def str2buf (P : Primitives) (s : String) : Str2bufRes :=
  if s = "" then .pass s else .buf (P.b58decode s)

/-- JavaScript truthiness of a `str2buf` result: a Buffer is always
truthy (even an empty one); a string is truthy exactly when nonempty. -/
def jsTruthy : Str2bufRes → Bool
  | .buf _ => true
  | .pass s => s != ""

/-- `str2buf` applied once more, as `deriveKey` does internally: a
Buffer passes through, a string is base-58 decoded. -/
def str2bufBytes (P : Primitives) : Str2bufRes → Bytes
  | .buf b => b
  | .pass s => P.b58decode s

/-- `encrypt(plaintext, key, iv, algo)`: throws "algo is not available"
when the named cipher is unsupported, otherwise runs the cipher.
(`str2buf` on the Buffer arguments is the identity and is elided.) -/
def encrypt (P : Primitives) (plaintext key iv : Bytes) (algo : String) :
    Except String Bytes :=
  if ! isCipherAvailable P algo then .error (algo ++ " is not available")
  else .ok (P.cipherEnc algo key iv plaintext)

/-- `decrypt(ciphertext, key, iv, algo)`: the availability check first,
then `createDecipheriv`, which rejects a passed-through (empty-string)
IV.  That TypeError message stands for the Node built-in's throw and no
theorem depends on its wording. -/
def decrypt (P : Primitives) (ciphertext key : Bytes) (iv : Str2bufRes)
    (algo : String) : Except String Bytes :=
  if ! isCipherAvailable P algo then .error (algo ++ " is not available")
  else
    match iv with
    | .pass _ => .error "TypeError: invalid initialization vector"
    | .buf ivBuf => .ok (P.cipherDec algo key ivBuf ciphertext)

/-- JavaScript `Buffer.slice(a, b)`: the bytes from index `a` up to
(excluding) index `b`, clamped to the buffer's length. -/
def jsSlice (l : Bytes) (a b : Nat) : Bytes :=
  (l.take b).drop a

/-- `getMAC(derivedKey, ciphertext)`: keccak-256 of
`derivedKey.slice(16, 32)` concatenated with the ciphertext. -/
def getMAC (P : Primitives) (derivedKey ciphertext : Bytes) : Bytes :=
  P.keccak256 (jsSlice derivedKey 16 32 ++ ciphertext)

/-- `deriveKey(password, salt, kdfParams)`: throws
"Must provide password and salt to derive a key" when the salt is falsy
— in particular when `str2buf` passed an empty kdfSalt string through;
a Buffer salt, even an empty one, is truthy — then scrypt over the
utf-8 bytes of the password and the salt bytes.  The undefined/null
password guard is unrepresentable for a Lean `String`; an empty
password is falsy but allowed, exactly as in the source.  (The source
also computes `maxmem = 2 * 128 * N * r` and hands it to scryptSync; it
is part of the scrypt call and does not change the derived bytes.) -/
def deriveKey (P : Primitives) (password : String) (salt : Str2bufRes)
    (kdfParams : ScryptParams) : Except String Bytes :=
  if jsTruthy salt = false then
    .error "Must provide password and salt to derive a key"
  else .ok (P.scrypt (P.utf8 password) (str2bufBytes P salt) kdfParams)

/-- The `{publicKey, privateKey}` pair handed to `marshal` by `dump`. -/
structure Keypair where
  publicKey : Bytes
  privateKey : Bytes
deriving DecidableEq, Repr

/-- The object returned by `create`: keypair plus fresh IV and salt. -/
structure KeyObject where
  publicKey : Bytes
  privateKey : Bytes
  iv : Bytes
  salt : Bytes
deriving DecidableEq, Repr

/-- `create(params)`: curve25519 keypair seeded from the blake2b-256
hash of fresh random bytes, IV from a hash of further random bytes
truncated to `ivBytes`, salt a full hash of further random bytes.  The
three `crypto.randomBytes` draws are passed in as arguments. -/
def create (P : Primitives) (params : Constants)
    (randKey randIv randSalt : Bytes) : KeyObject :=
  let pair := P.c25519gen (P.blake2b256 randKey)
  { publicKey := pair.1
    privateKey := pair.2
    iv := jsSlice (P.blake2b256 randIv) 0 params.ivBytes
    salt := P.blake2b256 randSalt }

/-- The `cipherParams` sub-object of the keystore record. -/
structure CipherParams where
  iv : String
deriving DecidableEq, Repr

/-- The `crypto` sub-object of the keystore record, fields in the order
the source assigns them. -/
structure CryptoStorage where
  cipher : String
  cipherText : String
  cipherParams : CipherParams
  mac : String
  kdf : String
  kdfSalt : String
deriving DecidableEq, Repr

/-- The keystore record (`keyStorage`) assembled by `marshal`. -/
structure KeyStorage where
  publicKeyId : String
  crypto : CryptoStorage
deriving DecidableEq, Repr

/-- `marshal(derivedKey, keyObject, salt, iv, algo)`: encrypt the
private key, then package public key, cipher name, ciphertext, IV, MAC,
the fixed string "scrypt" and the salt, every binary value base-58
encoded. -/
def marshal (P : Primitives) (derivedKey : Bytes) (keyObject : Keypair)
    (salt iv : Bytes) (algo : String) : Except String KeyStorage :=
  (encrypt P keyObject.privateKey derivedKey iv algo).map fun ciphertext =>
    { publicKeyId := P.b58encode keyObject.publicKey
      crypto :=
        { cipher := algo
          cipherText := P.b58encode ciphertext
          cipherParams := { iv := P.b58encode iv }
          mac := P.b58encode (getMAC P derivedKey ciphertext)
          kdf := "scrypt"
          kdfSalt := P.b58encode salt } }

/-- `dump(password, keyObject, options)` (synchronous path): derive the
secret key from the password and the key object's salt — a Buffer after
`str2buf`, hence `.buf`, so the falsy-salt guard never fires here —
then marshal. -/
def dump (P : Primitives) (password : String) (keyObject : KeyObject)
    (options : Constants) : Except String KeyStorage :=
  (deriveKey P password (.buf keyObject.salt) options.scrypt).bind fun derivedKey =>
    marshal P derivedKey
      { publicKey := keyObject.publicKey, privateKey := keyObject.privateKey }
      keyObject.salt keyObject.iv options.cipher

/-- `verifyAndDecrypt` inside `recover`: `getMAC(derivedKey,
ciphertext)` runs first — `Buffer.concat` inside it rejects a
passed-through empty-string ciphertext — then `Buffer.equals`, which
rejects a passed-through empty-string mac and otherwise compares bytes;
on mismatch throw "message authentication code mismatch", otherwise
decrypt.  The TypeError messages stand for the Node built-ins' throws
and no theorem depends on their wording. -/
def verifyAndDecrypt (P : Primitives) (derivedKey : Bytes)
    (iv ciphertext mac : Str2bufRes) (algo : String) : Except String Bytes :=
  match ciphertext with
  | .pass _ => .error "TypeError: list argument must be an Array of Buffers"
  | .buf ct =>
    match mac with
    | .pass _ => .error "TypeError: otherBuffer must be an instance of Buffer"
    | .buf m =>
      if getMAC P derivedKey ct ≠ m then
        .error "message authentication code mismatch"
      else decrypt P ct derivedKey iv algo

/-- `recover(password, keyStorage, kdfParams)` (synchronous path):
`str2buf` each textual field — base-58 decoding it, or passing an empty
string through — then derive the secret key (whose falsy-salt guard
throws on a passed-through kdfSalt), then verify the MAC and decrypt. -/
def recover (P : Primitives) (password : String) (keyStorage : KeyStorage)
    (kdfParams : ScryptParams) : Except String Bytes :=
  let iv := str2buf P keyStorage.crypto.cipherParams.iv
  let salt := str2buf P keyStorage.crypto.kdfSalt
  let ciphertext := str2buf P keyStorage.crypto.cipherText
  let mac := str2buf P keyStorage.crypto.mac
  let algo := keyStorage.crypto.cipher
  (deriveKey P password salt kdfParams).bind fun derivedKey =>
    verifyAndDecrypt P derivedKey iv ciphertext mac algo

/-- JavaScript `String.prototype.split(sep)` on a character list. -/
def jsSplit (sep : Char) : List Char → List (List Char)
  | [] => [[]]
  | c :: rest =>
    match jsSplit sep rest with
    | [] => [[c]]
    | h :: t => if c = sep then [] :: h :: t else (c :: h) :: t

/-- JavaScript `Array.prototype.join(sep)` on lists of characters. -/
def jsJoin (sep : Char) : List (List Char) → List Char
  | [] => []
  | l :: ls =>
    match ls with
    | [] => l
    | _ :: _ => l ++ sep :: jsJoin sep ls

/-- `generateKeystoreFilename(publicKey)`: the ISO timestamp (passed in
as `now`, standing for `new Date().toISOString()`), a hyphen, the
public key and ".json", then `.split(":").join("-")`.  The source also
throws if the public key is not a string, which cannot arise here. -/
def generateKeystoreFilename (now : String) (publicKey : String) : String :=
  let filename := now ++ "-" ++ publicKey ++ ".json"
  String.mk (jsJoin '-' (jsSplit ':' filename.data))

/-- JSON values produced by `JSON.stringify` over the keystore record:
strings and objects (fields in insertion order) suffice. -/
inductive Json where
  | str (s : String)
  | obj (fields : List (String × Json))
deriving Repr

/-- Top-level field names of a JSON value. -/
def Json.keys : Json → List String
  | .obj fields => fields.map Prod.fst
  | .str _ => []

/-- The JSON object `JSON.stringify` serializes for a keystore record:
field names and nesting exactly as the object literal in `marshal`
builds them. -/
def keyStorageToJson (ks : KeyStorage) : Json :=
  .obj [("publicKeyId", .str ks.publicKeyId),
        ("crypto", .obj
          [("cipher", .str ks.crypto.cipher),
           ("cipherText", .str ks.crypto.cipherText),
           ("cipherParams", .obj [("iv", .str ks.crypto.cipherParams.iv)]),
           ("mac", .str ks.crypto.mac),
           ("kdf", .str ks.crypto.kdf),
           ("kdfSalt", .str ks.crypto.kdfSalt)])]

/-- The in-memory state of a KeyManager instance: the public `pk` and
`constants` fields and the private `#isLocked`, `#password`,
`#keyStorage` and `#sk` fields.  `sk` is `none` when `#sk` was never
assigned (the record's `publicKeyId` was empty). -/
structure KMState where
  pk : String
  isLocked : Bool
  password : String
  keyStorage : KeyStorage
  sk : Option Bytes
  constants : Constants
deriving DecidableEq, Repr

/-- The constructor argument: either a bare string (taken as the
password) or a parameter object with optional keyPath and constants. -/
inductive CtorParams where
  | str (password : String)
  | obj (password : Option String) (keyPath : Option String)
      (constants : Option Constants)

/-- `initKeyStorage(keyStorage, password)` in the constructor: store the
record, mark unlocked, keep the password, and when `publicKeyId` is a
nonempty string (JavaScript truthiness of `this.pk`) recover the
private key; a throw from `recover` aborts the whole construction. -/
def initKeyStorage (P : Primitives) (keyStorage : KeyStorage)
    (password : String) (constants : Constants) : Except String KMState :=
  if keyStorage.publicKeyId ≠ "" then
    (recover P password keyStorage constants.scrypt).map fun sk =>
      { pk := keyStorage.publicKeyId, isLocked := false, password := password,
        keyStorage := keyStorage, sk := some sk, constants := constants }
  else
    .ok { pk := keyStorage.publicKeyId, isLocked := false, password := password,
          keyStorage := keyStorage, sk := none, constants := constants }

/-- `generateKey(password)` in the constructor:
`initKeyStorage(dump(password, create(constants), constants), password)`. -/
def generateKey (P : Primitives) (password : String) (constants : Constants)
    (randKey randIv randSalt : Bytes) : Except String KMState := do
  let keyStorage ← dump P password (create P constants randKey randIv randSalt) constants
  initKeyStorage P keyStorage password constants

/-- `importFromFile(filepath, password)` in the constructor: parse the
keystore file (the file system and JSON.parse are modelled by the
`files` map; `none` stands for a missing or unparseable file) and init
from it. -/
def importFromFile (P : Primitives) (files : String → Option KeyStorage)
    (filepath : String) (password : String) (constants : Constants) :
    Except String KMState :=
  match files filepath with
  | none => .error "ENOENT: no such file or directory"
  | some keyStorage => initKeyStorage P keyStorage password constants

/-- The KeyManager constructor.  A non-string parameter object with a
falsy password (absent or the empty string) is rejected up front; a
bare string bypasses that check and is used as the password.  With a
keyPath the keyfile is imported and any error is rethrown as
"Error importing keyfile - " plus the stringified Error (JavaScript
prefixes the thrown message with "Error: "); otherwise a fresh key is
generated with the given or default constants. -/
def construct (P : Primitives) (files : String → Option KeyStorage)
    (params : CtorParams) (randKey randIv randSalt : Bytes) :
    Except String KMState :=
  match params with
  | .str password =>
    generateKey P password defaultOptions randKey randIv randSalt
  | .obj password keyPath constants =>
    if password = none ∨ password = some "" then
      .error "A password must be provided at initialization"
    else
      let cs := constants.getD defaultOptions
      match keyPath with
      | some filepath =>
        (importFromFile P files filepath (password.getD "") cs).mapError
          fun err => "Error importing keyfile - " ++ ("Error: " ++ err)
      | none => generateKey P (password.getD "") cs randKey randIv randSalt

/-- `getKeyStorage()`: throws while locked, throws when no public key
is set (`!this.pk` means the empty string), else returns the record. -/
def getKeyStorage (s : KMState) : Except String KeyStorage :=
  if s.isLocked = true then
    .error "Key manager is currently locked. Please unlock and try again."
  else if s.pk = "" then
    .error "A key must be initialized before using this key manager"
  else .ok s.keyStorage

/-- `lockKey()`: sets `#isLocked` and nothing else, in every state. -/
def lockKey (s : KMState) : KMState :=
  { s with isLocked := true }

/-- `unlockKey(password)`: throws when already unlocked, throws
"Invalid password" when the password differs from the stored one (both
throws happen before any assignment, so the state is untouched), else
clears `#isLocked`. -/
def unlockKey (s : KMState) (password : String) : Except String KMState :=
  if s.isLocked = false then .error "The key is already unlocked"
  else if password ≠ s.password then .error "Invalid password"
  else .ok { s with isLocked := false }

/-- `sign(message)`: throws while locked, else curve25519-signs the
utf-8 message with the stored private key and a fresh 64-byte random
nonce (passed in as `nonce`).  When `#sk` was never assigned the
library call itself throws; that TypeError is modelled as an error. -/
def sign (P : Primitives) (s : KMState) (message : String) (nonce : Bytes) :
    Except String Bytes :=
  if s.isLocked = true then
    .error "The key is currently locked. Please unlock and try again."
  else
    match s.sk with
    | some sk => .ok (P.c25519sign sk (P.utf8 message) nonce)
    | none => .error "TypeError: the private key is not set"

/-- `exportToFile(_keyPath)`: default directory "keyfiles", filename
from `generateKeystoreFilename`, content `JSON.stringify` of
`getKeyStorage()` (whose throws propagate), output path
`path.join(keyPath, outfile)`.  The method assigns no field, so the
state is returned unchanged alongside the path and the written JSON. -/
def exportToFile (s : KMState) (now : String) (keyPathArg : Option String) :
    Except String (KMState × String × Json) :=
  let keyPath := keyPathArg.getD "keyfiles"
  let outfile := generateKeystoreFilename now s.pk
  (getKeyStorage s).map fun ks =>
    (s, keyPath ++ "/" ++ outfile, keyStorageToJson ks)

/-- The keystore record `marshal` returns when the cipher is available:
used to state the codec theorems without an existential. -/
def marshalRecord (P : Primitives) (derivedKey : Bytes) (keyObject : Keypair)
    (salt iv : Bytes) (algo : String) : KeyStorage :=
  let ciphertext := P.cipherEnc algo derivedKey iv keyObject.privateKey
  { publicKeyId := P.b58encode keyObject.publicKey
    crypto :=
      { cipher := algo
        cipherText := P.b58encode ciphertext
        cipherParams := { iv := P.b58encode iv }
        mac := P.b58encode (getMAC P derivedKey ciphertext)
        kdf := "scrypt"
        kdfSalt := P.b58encode salt } }

/-- Character standing for one byte in the concrete text codec below. -/
def charOfByte (b : Byte) : Char := Char.ofNat b.val

/-- Byte recovered from a character in the concrete text codec below. -/
def byteOfChar (c : Char) : Byte := ⟨c.toNat % 256, Nat.mod_lt _ (by omega)⟩

/-- A small concrete instance of the external libraries, used to
evaluate the theorems on explicit inputs: the text codec maps each byte
to the character with that code, the hashes and the cipher transforms
are identities, scrypt concatenates password and salt, and curve25519
key generation duplicates its seed. -/
def P0 : Primitives where
  b58encode bs := String.mk (bs.map charOfByte)
  b58decode s := s.data.map byteOfChar
  utf8 s := s.data.map byteOfChar
  scrypt password salt _ := password ++ salt
  keccak256 bs := bs
  blake2b256 bs := bs
  ciphers := ["aes-256-ctr"]
  cipherEnc _ _ _ m := m
  cipherDec _ _ _ c := c
  c25519gen seed := (seed, seed)
  c25519sign sk msg nonce := sk ++ msg ++ nonce
  b58_decode_encode := by
    have hb : ∀ b : Byte, byteOfChar (charOfByte b) = b := by decide
    intro bs
    show (bs.map charOfByte).map byteOfChar = bs
    rw [List.map_map]
    simp [Function.comp_def, hb]
  cipher_dec_enc := fun _ _ _ _ _ => rfl

/-- Fixture record for evaluating the theorems: nonempty base-58 text
fields whose stored mac does not match the MAC recomputed under the
concrete primitives `P0` with password "pw". -/
def fixtureStorage : KeyStorage :=
  { publicKeyId := "A"
    crypto := { cipher := "aes-256-ctr", cipherText := "a", cipherParams := { iv := "i" },
                mac := "z", kdf := "scrypt", kdfSalt := "s" } }

/-- Fixture locked KeyManager state. -/
def fixtureLocked : KMState :=
  { pk := "A", isLocked := true, password := "pw", keyStorage := fixtureStorage,
    sk := some [7], constants := defaultOptions }

/-- Fixture unlocked KeyManager state: `fixtureLocked` after unlocking. -/
def fixtureUnlocked : KMState :=
  { fixtureLocked with isLocked := false }

/-- A keystore record with the empty publicKeyId sentinel and an empty
kdfSalt: `recover` throws the key-derivation error on it (the
passed-through empty salt is falsy), so the record is unrecoverable —
yet the constructor never even calls `recover` for it, because
`this.pk` is falsy. -/
def emptyPkStorage : KeyStorage :=
  { publicKeyId := ""
    crypto := { cipher := "aes-256-ctr", cipherText := "ab", cipherParams := { iv := "" },
                mac := "ab", kdf := "scrypt", kdfSalt := "" } }

/-- A record with a nonempty publicKeyId whose kdfSalt is the empty
string: `str2buf` passes the "" through and `deriveKey` throws before
any MAC computation. -/
def saltlessStorage : KeyStorage :=
  { publicKeyId := "A"
    crypto := { cipher := "aes-256-ctr", cipherText := "a", cipherParams := { iv := "i" },
                mac := "z", kdf := "scrypt", kdfSalt := "" } }

/-- The state a fresh generate-path construction reaches over `P0` with
password "pw" and random draws [1], [2], [3]. -/
def genState0 : KMState :=
  { pk := P0.b58encode (P0.c25519gen (P0.blake2b256 [1])).1
    isLocked := false
    password := "pw"
    keyStorage := marshalRecord P0
      (P0.scrypt (P0.utf8 "pw") (P0.blake2b256 [3]) defaultOptions.scrypt)
      { publicKey := (P0.c25519gen (P0.blake2b256 [1])).1
        privateKey := (P0.c25519gen (P0.blake2b256 [1])).2 }
      (P0.blake2b256 [3]) (jsSlice (P0.blake2b256 [2]) 0 defaultOptions.ivBytes)
      defaultOptions.cipher
    sk := some (P0.c25519gen (P0.blake2b256 [1])).2
    constants := defaultOptions }

/-- Fixture unlocked state holding a concrete marshalled record, for
evaluating the export theorems. -/
def shapeState : KMState :=
  { pk := "A", isLocked := false, password := "pw"
    keyStorage := marshalRecord P0 [1] { publicKey := [2], privateKey := [3] } [4] [5]
      "aes-256-ctr"
    sk := some [3], constants := defaultOptions }

/-- A cipher the provider lists is reported available. -/
theorem isCipherAvailable_of_mem (P : Primitives) (algo : String)
    (h : algo ∈ P.ciphers) : isCipherAvailable P algo = true := by
  simp only [isCipherAvailable, List.any_eq_true]
  exact ⟨algo, h, by simp⟩

/-- When the cipher is available, `marshal` succeeds and returns exactly
the record `marshalRecord` describes. -/
theorem marshal_eq_ok (P : Primitives) (derivedKey : Bytes) (k : Keypair)
    (salt iv : Bytes) (algo : String) (h : algo ∈ P.ciphers) :
    marshal P derivedKey k salt iv algo =
      .ok (marshalRecord P derivedKey k salt iv algo) := by
  simp [marshal, encrypt, isCipherAvailable_of_mem P algo h, marshalRecord, Except.map]

/-- A cipher reported available is in the provider's list. -/
theorem mem_of_isCipherAvailable (P : Primitives) (algo : String)
    (h : isCipherAvailable P algo = true) : algo ∈ P.ciphers := by
  simp only [isCipherAvailable, List.any_eq_true] at h
  obtain ⟨x, hx, he⟩ := h
  rw [beq_iff_eq] at he
  rw [← he]
  exact hx

/-- `deriveKey` on a Buffer salt never hits the falsy-salt guard. -/
theorem deriveKey_buf (P : Primitives) (password : String) (b : Bytes)
    (kdfParams : ScryptParams) :
    deriveKey P password (.buf b) kdfParams =
      .ok (P.scrypt (P.utf8 password) b kdfParams) := rfl

/-- A successful `marshal` means the cipher was available and the record
is exactly `marshalRecord`. -/
theorem marshal_ok_inv (P : Primitives) (derivedKey : Bytes) (k : Keypair)
    (salt iv : Bytes) (algo : String) (record : KeyStorage)
    (h : marshal P derivedKey k salt iv algo = .ok record) :
    isCipherAvailable P algo = true ∧
    record = marshalRecord P derivedKey k salt iv algo := by
  unfold marshal encrypt at h
  by_cases ha : isCipherAvailable P algo = true
  · rw [ha] at h
    simp only [Bool.not_true, Bool.false_eq_true, if_false, Except.map,
      Except.ok.injEq] at h
    exact ⟨ha, by rw [← h]; rfl⟩
  · rw [Bool.not_eq_true] at ha
    rw [ha] at h
    simp [Except.map] at h

/-- Inversion of `Except.map` at a successful result. -/
theorem except_map_ok_inv {a b e : Type} (f : a → b) (x : Except e a) (v : b)
    (h : x.map f = .ok v) : ∃ w, x = .ok w ∧ v = f w := by
  cases x with
  | error err => simp [Except.map] at h
  | ok w =>
    simp only [Except.map, Except.ok.injEq] at h
    exact ⟨w, rfl, h.symm⟩

/-- Recovering from a freshly marshalled record with the same password
and KDF parameters yields the private key back, provided the record's
base-58 text fields are nonempty (so none of them is passed through as
a falsy string). -/
theorem recover_marshalRecord (P : Primitives) (p : String) (k : Keypair)
    (salt iv : Bytes) (algo : String) (kdfParams : ScryptParams)
    (h : algo ∈ P.ciphers)
    (hsalt : P.b58encode salt ≠ "")
    (hiv : P.b58encode iv ≠ "")
    (hct : P.b58encode (P.cipherEnc algo (P.scrypt (P.utf8 p) salt kdfParams) iv
      k.privateKey) ≠ "")
    (hmac : P.b58encode (getMAC P (P.scrypt (P.utf8 p) salt kdfParams)
      (P.cipherEnc algo (P.scrypt (P.utf8 p) salt kdfParams) iv k.privateKey)) ≠ "") :
    recover P p (marshalRecord P (P.scrypt (P.utf8 p) salt kdfParams) k salt iv algo)
      kdfParams = .ok k.privateKey := by
  simp only [recover, marshalRecord, str2buf, P.b58_decode_encode]
  rw [if_neg hsalt, if_neg hiv, if_neg hct, if_neg hmac, deriveKey_buf]
  simp only [Except.bind, verifyAndDecrypt]
  rw [if_neg (by simp)]
  simp [decrypt, isCipherAvailable_of_mem P algo h, P.cipher_dec_enc _ _ _ _ h]

/-- Conversely, whenever `recover` succeeds on a freshly marshalled
record it can only have returned the marshalled private key. -/
theorem recover_marshalRecord_ok_inv (P : Primitives) (p : String) (k : Keypair)
    (salt iv : Bytes) (algo : String) (kdfParams : ScryptParams) (v : Bytes)
    (hr : recover P p (marshalRecord P (P.scrypt (P.utf8 p) salt kdfParams) k salt iv algo)
      kdfParams = .ok v) :
    v = k.privateKey := by
  simp only [recover, marshalRecord, str2buf, P.b58_decode_encode] at hr
  by_cases hsalt : P.b58encode salt = ""
  · rw [if_pos hsalt] at hr
    simp [deriveKey, jsTruthy, hsalt, Except.bind] at hr
  · rw [if_neg hsalt, deriveKey_buf] at hr
    simp only [Except.bind] at hr
    by_cases hct : P.b58encode (P.cipherEnc algo (P.scrypt (P.utf8 p) salt kdfParams) iv
        k.privateKey) = ""
    · rw [if_pos hct] at hr
      simp [verifyAndDecrypt] at hr
    · rw [if_neg hct] at hr
      by_cases hmac : P.b58encode (getMAC P (P.scrypt (P.utf8 p) salt kdfParams)
          (P.cipherEnc algo (P.scrypt (P.utf8 p) salt kdfParams) iv k.privateKey)) = ""
      · rw [if_pos hmac] at hr
        simp [verifyAndDecrypt] at hr
      · rw [if_neg hmac] at hr
        simp only [verifyAndDecrypt] at hr
        rw [if_neg (by simp)] at hr
        simp only [decrypt] at hr
        by_cases hav : isCipherAvailable P algo = true
        · rw [hav] at hr
          by_cases hivz : P.b58encode iv = ""
          · rw [if_pos hivz] at hr
            simp at hr
          · rw [if_neg hivz] at hr
            simp only [Bool.not_true, Bool.false_eq_true, if_false,
              Except.ok.injEq] at hr
            rw [← hr]
            exact P.cipher_dec_enc algo (P.scrypt (P.utf8 p) salt kdfParams) iv
              k.privateKey (mem_of_isCipherAvailable P algo hav)
        · rw [Bool.not_eq_true] at hav
          rw [hav] at hr
          simp at hr

/-- C1 (amended): Round-trip — for every password `p`, keypair `k`,
salt, IV, supported cipher name and KDF parameters, recovering with the
same password from the record produced by marshalling over the derived
key returns exactly `k`'s private key bytes, provided the record's
base-58 text fields are nonempty.  (With an empty salt the marshalled
kdfSalt encodes to the empty string, `str2buf` passes it through, and
`recover` throws the key-derivation error instead of returning the
key: see the counterexample.) -/
theorem roundtrip_recover_marshal (P : Primitives) (p : String) (k : Keypair)
    (salt iv : Bytes) (algo : String) (kdfParams : ScryptParams)
    (record : KeyStorage) (hciph : algo ∈ P.ciphers)
    (hmar : (deriveKey P p (.buf salt) kdfParams).bind
      (fun derivedKey => marshal P derivedKey k salt iv algo) = .ok record)
    (hsalt : record.crypto.kdfSalt ≠ "") (hiv : record.crypto.cipherParams.iv ≠ "")
    (hct : record.crypto.cipherText ≠ "") (hmac : record.crypto.mac ≠ "") :
    recover P p record kdfParams = .ok k.privateKey := by
  rw [deriveKey_buf] at hmar
  have hm : marshal P (P.scrypt (P.utf8 p) salt kdfParams) k salt iv algo =
      .ok record := hmar
  obtain ⟨_hav, hrec⟩ := marshal_ok_inv P _ k salt iv algo record hm
  subst hrec
  exact recover_marshalRecord P p k salt iv algo kdfParams hciph
    (by simpa [marshalRecord] using hsalt) (by simpa [marshalRecord] using hiv)
    (by simpa [marshalRecord] using hct) (by simpa [marshalRecord] using hmac)

/-- Witness for C1 at a concrete password, keypair, nonempty salt and
IV, the aes-256-ctr cipher and concrete KDF parameters, over `P0`. -/
theorem roundtrip_recover_marshal_witness :
    recover P0 "pw"
      (marshalRecord P0
        (P0.scrypt (P0.utf8 "pw") [1] { dkLen := 32, n := 4, r := 8, p := 1 })
        { publicKey := [2], privateKey := [3] } [1] [4] "aes-256-ctr")
      { dkLen := 32, n := 4, r := 8, p := 1 } = .ok [3] :=
  roundtrip_recover_marshal P0 "pw" { publicKey := [2], privateKey := [3] }
    [1] [4] "aes-256-ctr" { dkLen := 32, n := 4, r := 8, p := 1 }
    (marshalRecord P0
      (P0.scrypt (P0.utf8 "pw") [1] { dkLen := 32, n := 4, r := 8, p := 1 })
      { publicKey := [2], privateKey := [3] } [1] [4] "aes-256-ctr")
    (by decide) (by decide) (by decide) (by decide) (by decide) (by decide)

/-- C1 counterexample: at the empty salt the round trip fails — the
marshalled kdfSalt is the empty string, `str2buf` passes it through,
and `recover` throws "Must provide password and salt to derive a key"
instead of returning the private key. -/
theorem roundtrip_recover_marshal_cex :
    (deriveKey P0 "pw" (.buf ([] : Bytes)) { dkLen := 32, n := 4, r := 8, p := 1 }).bind
      (fun derivedKey =>
        (marshal P0 derivedKey { publicKey := [2], privateKey := [3] } [] [4]
            "aes-256-ctr").bind
          (fun record =>
            recover P0 "pw" record { dkLen := 32, n := 4, r := 8, p := 1 })) =
      .error "Must provide password and salt to derive a key" ∧
    (Except.error "Must provide password and salt to derive a key" :
        Except String Bytes) ≠ .ok [3] := by
  exact ⟨by decide, by decide⟩

/-- C2 (amended): MAC-before-decrypt — for every record on which key
derivation succeeds (its kdfSalt decodes to a buffer rather than being
passed through) and whose cipherText and mac fields are nonempty, when
the MAC recomputed from the derived key and the record's decoded
ciphertext differs from the record's stored MAC, `recover` returns
exactly the "message authentication code mismatch" error: no
decryption result, in particular no (partially) decrypted plaintext,
is ever produced, not even when the record names an unavailable
cipher.  (A record whose kdfSalt is the empty string makes `recover`
throw the key-derivation error before any MAC computation: see the
counterexample.) -/
theorem recover_mac_mismatch_error (P : Primitives) (password : String)
    (ks : KeyStorage) (kdfParams : ScryptParams) (derivedKey : Bytes)
    (hdk : deriveKey P password (str2buf P ks.crypto.kdfSalt) kdfParams =
      .ok derivedKey)
    (hct : ks.crypto.cipherText ≠ "") (hmac : ks.crypto.mac ≠ "")
    (hmis : getMAC P derivedKey (P.b58decode ks.crypto.cipherText) ≠
      P.b58decode ks.crypto.mac) :
    recover P password ks kdfParams =
      .error "message authentication code mismatch" := by
  simp only [recover]
  rw [hdk]
  simp only [Except.bind, str2buf]
  rw [if_neg hct, if_neg hmac]
  simp only [verifyAndDecrypt]
  rw [if_pos hmis]

/-- Witness for C2: a concrete record with nonempty text fields whose
stored MAC does not match the recomputed one (as after tampering or a
wrong password). -/
theorem recover_mac_mismatch_error_witness :
    deriveKey P0 "pw" (str2buf P0 fixtureStorage.crypto.kdfSalt)
      defaultOptions.scrypt = .ok [112, 119, 115] ∧
    getMAC P0 [112, 119, 115] (P0.b58decode fixtureStorage.crypto.cipherText) ≠
      P0.b58decode fixtureStorage.crypto.mac ∧
    recover P0 "pw" fixtureStorage defaultOptions.scrypt =
      .error "message authentication code mismatch" :=
  ⟨by decide, by decide,
   recover_mac_mismatch_error P0 "pw" fixtureStorage defaultOptions.scrypt
     [112, 119, 115] (by decide) (by decide) (by decide) (by decide)⟩

/-- C2 counterexample: a record whose kdfSalt is the empty string —
`recover` throws the key-derivation error before any MAC is computed,
not the IntegrityError the claim promises for every record. -/
theorem recover_mac_mismatch_error_cex :
    recover P0 "pw" saltlessStorage defaultOptions.scrypt =
      .error "Must provide password and salt to derive a key" ∧
    recover P0 "pw" saltlessStorage defaultOptions.scrypt ≠
      .error "message authentication code mismatch" := by
  exact ⟨by decide, by decide⟩

/-- C6: MAC definition — for every derived secret key of at least 32
bytes and every ciphertext, `getMAC` returns the keccak-256 hash of
bytes 16 through 32 of the derived key concatenated with the
ciphertext bytes. -/
theorem getMAC_keccak_slice (P : Primitives) (derivedKey ciphertext : Bytes)
    (_h : 32 ≤ derivedKey.length) :
    getMAC P derivedKey ciphertext =
      P.keccak256 ((derivedKey.drop 16).take 16 ++ ciphertext) := by
  unfold getMAC jsSlice
  rw [List.drop_take]

/-- Witness for C6 at a concrete 32-byte derived key and a concrete
ciphertext. -/
theorem getMAC_keccak_slice_witness :
    32 ≤ (List.replicate 32 (5 : Byte)).length ∧
    getMAC P0 (List.replicate 32 (5 : Byte)) [1, 2] =
      P0.keccak256 (((List.replicate 32 (5 : Byte)).drop 16).take 16 ++ [1, 2]) :=
  ⟨by decide, getMAC_keccak_slice P0 (List.replicate 32 (5 : Byte)) [1, 2] (by decide)⟩

/-- C9: `lockKey` is total and frame-preserving — it is a total function
of the state (the method body cannot throw), afterwards the lock state
is Locked, and every other field of the instance (public key, stored
private key, password, keystore record, crypto parameters) is
unchanged, whatever the starting state. -/
theorem lockKey_total_frame (s : KMState) :
    (lockKey s).isLocked = true ∧
    (lockKey s).pk = s.pk ∧
    (lockKey s).sk = s.sk ∧
    (lockKey s).password = s.password ∧
    (lockKey s).keyStorage = s.keyStorage ∧
    (lockKey s).constants = s.constants := by
  simp [lockKey]

/-- `jsSplit` never returns an empty list of parts. -/
theorem jsSplit_ne_nil (sep : Char) (l : List Char) : jsSplit sep l ≠ [] := by
  induction l with
  | nil => simp [jsSplit]
  | cons c rest ih =>
    unfold jsSplit
    cases hsplit : jsSplit sep rest with
    | nil => exact absurd hsplit ih
    | cons h t =>
      by_cases hc : c = sep <;> simp [hc]

/-- Joining a nonempty-headed part list after consing a character. -/
theorem jsJoin_cons_cons (sep c : Char) (h : List Char) (t : List (List Char)) :
    jsJoin sep ((c :: h) :: t) = c :: jsJoin sep (h :: t) := by
  cases t <;> rfl

/-- Splitting on a separator and joining with a replacement character is
the character-wise replacement. -/
theorem jsJoin_jsSplit (l : List Char) :
    jsJoin '-' (jsSplit ':' l) = l.map fun c => if c = ':' then '-' else c := by
  induction l with
  | nil => rfl
  | cons c rest ih =>
    cases hsplit : jsSplit ':' rest with
    | nil => exact absurd hsplit (jsSplit_ne_nil ':' rest)
    | cons h t =>
      rw [hsplit] at ih
      by_cases hc : c = ':'
      · subst hc
        simp only [jsSplit, hsplit, if_pos rfl, List.map_cons]
        show '-' :: jsJoin '-' (h :: t) = _
        rw [ih]
        simp
      · simp only [jsSplit, hsplit, if_neg hc, List.map_cons]
        rw [jsJoin_cons_cons, ih]

/-- C4: `unlockKey` semantics — while already unlocked it fails with the
AlreadyUnlockedError message whatever the password; while locked it
transitions to Unlocked exactly when the password equals the one
captured at construction/import time (the stored `#password` field),
and with any other password it fails with the InvalidPasswordError
message, producing no new state, so the instance remains Locked (both
throws in the method body happen before the single assignment). -/
theorem unlockKey_semantics (s : KMState) (password : String) :
    (s.isLocked = false → unlockKey s password = .error "The key is already unlocked") ∧
    (s.isLocked = true → password = s.password →
      unlockKey s password = .ok { s with isLocked := false }) ∧
    (s.isLocked = true → password ≠ s.password →
      unlockKey s password = .error "Invalid password") := by
  refine ⟨fun hu => ?_, fun hl hp => ?_, fun hl hp => ?_⟩
  · simp [unlockKey, hu]
  · simp [unlockKey, hl, hp]
  · simp [unlockKey, hl, hp]

/-- Witness for C4: all three branches at a concrete locked state and
its unlocked variant. -/
theorem unlockKey_semantics_witness :
    unlockKey fixtureLocked "pw" = .ok { fixtureLocked with isLocked := false } ∧
    unlockKey fixtureLocked "bad" = .error "Invalid password" ∧
    unlockKey { fixtureLocked with isLocked := false } "pw" =
      .error "The key is already unlocked" :=
  ⟨(unlockKey_semantics fixtureLocked "pw").2.1 (by decide) (by decide),
   (unlockKey_semantics fixtureLocked "bad").2.2 (by decide) (by decide),
   (unlockKey_semantics { fixtureLocked with isLocked := false } "pw").1 (by decide)⟩

/-- C8: filename determinism — for every timestamp string and public key
string, the generated filename is `<timestamp>-<publicKeyId>.json` with
every colon character replaced by a hyphen; in particular publicKeyId
"ABC123" at timestamp 2020-04-03T10:00:00.000Z yields
2020-04-03T10-00-00.000Z-ABC123.json; and a successful `exportToFile`
returns the state unchanged (in particular the lock state) and writes
under that filename inside the chosen directory. -/
theorem filename_determinism :
    (∀ now publicKey : String, generateKeystoreFilename now publicKey =
      String.mk ((now ++ "-" ++ publicKey ++ ".json").data.map
        fun c => if c = ':' then '-' else c)) ∧
    generateKeystoreFilename "2020-04-03T10:00:00.000Z" "ABC123" =
      "2020-04-03T10-00-00.000Z-ABC123.json" ∧
    (∀ (s : KMState) (now : String) (keyPathArg : Option String)
        (res : KMState × String × Json),
      exportToFile s now keyPathArg = .ok res →
        res.1 = s ∧
        res.2.1 = keyPathArg.getD "keyfiles" ++ "/" ++ generateKeystoreFilename now s.pk) := by
  refine ⟨fun now publicKey => ?_, ?_, fun s now keyPathArg res h => ?_⟩
  · show String.mk (jsJoin '-' (jsSplit ':' ((now ++ "-" ++ publicKey ++ ".json").data))) = _
    rw [jsJoin_jsSplit]
  · decide
  · unfold exportToFile at h
    cases hks : getKeyStorage s with
    | error e => rw [hks] at h; exact absurd h (by simp [Except.map])
    | ok ks =>
      rw [hks] at h
      simp only [Except.map, Except.ok.injEq] at h
      rw [← h]
      exact ⟨rfl, rfl⟩

/-- Witness for C8: the general clause at the concrete timestamp and
key of the example, and the export clause at a concrete unlocked state
with the default directory. -/
theorem filename_determinism_witness :
    generateKeystoreFilename "2020-04-03T10:00:00.000Z" "ABC123" =
      String.mk (("2020-04-03T10:00:00.000Z" ++ "-" ++ "ABC123" ++ ".json").data.map
        fun c => if c = ':' then '-' else c) ∧
    fixtureUnlocked = fixtureUnlocked ∧
    "keyfiles" ++ "/" ++
        generateKeystoreFilename "2020-04-03T10:00:00.000Z" fixtureUnlocked.pk =
      (none : Option String).getD "keyfiles" ++ "/" ++
        generateKeystoreFilename "2020-04-03T10:00:00.000Z" fixtureUnlocked.pk :=
  ⟨filename_determinism.1 "2020-04-03T10:00:00.000Z" "ABC123",
   (filename_determinism.2.2 fixtureUnlocked "2020-04-03T10:00:00.000Z" none
      (fixtureUnlocked,
        "keyfiles" ++ "/" ++
          generateKeystoreFilename "2020-04-03T10:00:00.000Z" fixtureUnlocked.pk,
        keyStorageToJson fixtureStorage) rfl).1,
   (filename_determinism.2.2 fixtureUnlocked "2020-04-03T10:00:00.000Z" none
      (fixtureUnlocked,
        "keyfiles" ++ "/" ++
          generateKeystoreFilename "2020-04-03T10:00:00.000Z" fixtureUnlocked.pk,
        keyStorageToJson fixtureStorage) rfl).2⟩

/-- A successful `initKeyStorage` always yields an unlocked state that
keeps the given password, record and constants. -/
theorem initKeyStorage_ok (P : Primitives) (ks : KeyStorage) (password : String)
    (constants : Constants) (st : KMState)
    (h : initKeyStorage P ks password constants = .ok st) :
    st.isLocked = false ∧ st.password = password ∧ st.keyStorage = ks ∧
    st.constants = constants := by
  unfold initKeyStorage at h
  by_cases hpk : ks.publicKeyId ≠ ""
  · rw [if_pos hpk] at h
    cases hr : recover P password ks constants.scrypt with
    | error e => rw [hr] at h; exact absurd h (by simp [Except.map])
    | ok k =>
      rw [hr] at h
      simp only [Except.map, Except.ok.injEq] at h
      rw [← h]
      exact ⟨rfl, rfl, rfl, rfl⟩
  · rw [if_neg hpk] at h
    simp only [Except.ok.injEq] at h
    rw [← h]
    exact ⟨rfl, rfl, rfl, rfl⟩

/-- Inversion of a successful generate-path construction: whatever
state `generateKey` produced is unlocked, captured the password, and —
when the encoded public key is nonempty — holds exactly the generated
private key, recovered back from the freshly marshalled record. -/
theorem generateKey_ok_inv (P : Primitives) (pw : String) (cs : Constants)
    (r1 r2 r3 : Bytes) (st : KMState)
    (hpk : P.b58encode (P.c25519gen (P.blake2b256 r1)).1 ≠ "")
    (h : generateKey P pw cs r1 r2 r3 = .ok st) :
    st.isLocked = false ∧ st.password = pw ∧
    st.sk = some (P.c25519gen (P.blake2b256 r1)).2 := by
  have hdump : dump P pw (create P cs r1 r2 r3) cs =
      marshal P (P.scrypt (P.utf8 pw) (P.blake2b256 r3) cs.scrypt)
        { publicKey := (P.c25519gen (P.blake2b256 r1)).1
          privateKey := (P.c25519gen (P.blake2b256 r1)).2 }
        (P.blake2b256 r3) (jsSlice (P.blake2b256 r2) 0 cs.ivBytes) cs.cipher := rfl
  simp only [generateKey] at h
  rw [hdump] at h
  cases hm : marshal P (P.scrypt (P.utf8 pw) (P.blake2b256 r3) cs.scrypt)
      { publicKey := (P.c25519gen (P.blake2b256 r1)).1
        privateKey := (P.c25519gen (P.blake2b256 r1)).2 }
      (P.blake2b256 r3) (jsSlice (P.blake2b256 r2) 0 cs.ivBytes) cs.cipher with
  | error e =>
    rw [hm] at h
    exact Except.noConfusion h
  | ok ks =>
    rw [hm] at h
    obtain ⟨_hav, hks⟩ := marshal_ok_inv P _ _ _ _ _ ks hm
    subst hks
    have h2 : initKeyStorage P (marshalRecord P
        (P.scrypt (P.utf8 pw) (P.blake2b256 r3) cs.scrypt)
        { publicKey := (P.c25519gen (P.blake2b256 r1)).1
          privateKey := (P.c25519gen (P.blake2b256 r1)).2 }
        (P.blake2b256 r3) (jsSlice (P.blake2b256 r2) 0 cs.ivBytes) cs.cipher)
        pw cs = .ok st := h
    unfold initKeyStorage at h2
    rw [if_pos (by simpa [marshalRecord] using hpk)] at h2
    obtain ⟨v, hr, hb⟩ := except_map_ok_inv _ _ _ h2
    have hv := recover_marshalRecord_ok_inv P pw
      { publicKey := (P.c25519gen (P.blake2b256 r1)).1
        privateKey := (P.c25519gen (P.blake2b256 r1)).2 }
      (P.blake2b256 r3) (jsSlice (P.blake2b256 r2) 0 cs.ivBytes) cs.cipher
      cs.scrypt v hr
    rw [hb, hv]
    exact ⟨rfl, rfl, rfl⟩

/-- C3 (amended): for every stored KeystoreRecord with a nonempty
publicKeyId and every password, importing either succeeds with state
Unlocked and the recovered private key held in memory, or — on MAC
failure or a malformed record — construction fails entirely with the
KeyImportError wrapper, producing no partial instance: the constructor
result is exactly the `recover` result mapped into a fresh unlocked
state on success and into the "Error importing keyfile - " error on
failure.  (For a record whose publicKeyId is the empty sentinel, that
same import succeeds without holding any key: see the counterexample.) -/
theorem import_construct_atomic (P : Primitives) (files : String → Option KeyStorage)
    (filepath pw : String) (constants : Option Constants) (r1 r2 r3 : Bytes)
    (ks : KeyStorage) (hpw : pw ≠ "") (hfile : files filepath = some ks)
    (hpk : ks.publicKeyId ≠ "") :
    construct P files (.obj (some pw) (some filepath) constants) r1 r2 r3 =
      ((recover P pw ks (constants.getD defaultOptions).scrypt).map fun k =>
        { pk := ks.publicKeyId, isLocked := false, password := pw, keyStorage := ks,
          sk := some k, constants := constants.getD defaultOptions }).mapError
        fun err => "Error importing keyfile - " ++ ("Error: " ++ err) := by
  simp only [construct]
  rw [if_neg (by simp [hpw])]
  simp only [importFromFile, hfile]
  unfold initKeyStorage
  rw [if_pos hpk]
  rfl

/-- Witness for C3 at the concrete record `fixtureStorage` (nonempty
publicKeyId, mismatching MAC), where the import fails atomically with
the KeyImportError wrapper around the MAC mismatch. -/
theorem import_construct_atomic_witness :
    construct P0 (fun _ => some fixtureStorage) (.obj (some "pw") (some "f") none)
        [1] [2] [3] =
      ((recover P0 "pw" fixtureStorage ((none : Option Constants).getD
          defaultOptions).scrypt).map fun k =>
        { pk := fixtureStorage.publicKeyId, isLocked := false, password := "pw",
          keyStorage := fixtureStorage, sk := some k,
          constants := (none : Option Constants).getD defaultOptions }).mapError
        fun err => "Error importing keyfile - " ++ ("Error: " ++ err) :=
  (import_construct_atomic P0 (fun _ => some fixtureStorage) "f" "pw" none [1] [2] [3]
    fixtureStorage (by decide) rfl (by decide))

/-- C3 counterexample: importing a record whose publicKeyId is the
empty sentinel succeeds (state Unlocked) with no private key held in
memory, although the record is unrecoverable — `recover` throws the
key-derivation error on it — so the import neither holds a recovered
key nor fails with KeyImportError on a malformed record. -/
theorem import_construct_atomic_cex :
    recover P0 "pw" emptyPkStorage defaultOptions.scrypt =
      .error "Must provide password and salt to derive a key" ∧
    construct P0 (fun _ => some emptyPkStorage) (.obj (some "pw") (some "f") none)
        [1] [2] [3] =
      .ok { pk := "", isLocked := false, password := "pw",
            keyStorage := emptyPkStorage, sk := none, constants := defaultOptions } := by
  exact ⟨by decide, by decide⟩

/-- C5: lock discipline — a Key Manager constructed fresh (generate
path) is Unlocked; after `lockKey()` every `sign` call fails with the
KeyLockedError message; after `unlockKey` with the password captured at
construction, `sign` succeeds again, returning the curve25519 signature
under the generated private key. -/
theorem lock_discipline_cycle (P : Primitives) (files : String → Option KeyStorage)
    (pw msg : String) (r1 r2 r3 nonce : Bytes) (st : KMState)
    (hpw : pw ≠ "")
    (_hc : defaultOptions.cipher ∈ P.ciphers)
    (hpk : P.b58encode (P.c25519gen (P.blake2b256 r1)).1 ≠ "")
    (h : construct P files (.obj (some pw) none none) r1 r2 r3 = .ok st) :
    st.isLocked = false ∧
    sign P (lockKey st) msg nonce =
      .error "The key is currently locked. Please unlock and try again." ∧
    unlockKey (lockKey st) pw = .ok { lockKey st with isLocked := false } ∧
    sign P { lockKey st with isLocked := false } msg nonce =
      .ok (P.c25519sign (P.c25519gen (P.blake2b256 r1)).2 (P.utf8 msg) nonce) := by
  have hcg : construct P files (.obj (some pw) none none) r1 r2 r3 =
      generateKey P pw defaultOptions r1 r2 r3 := by
    simp only [construct]
    rw [if_neg (by simp [hpw])]
    rfl
  rw [hcg] at h
  obtain ⟨h1, h2, h3⟩ := generateKey_ok_inv P pw defaultOptions r1 r2 r3 st hpk h
  refine ⟨h1, ?_, ?_, ?_⟩
  · simp [sign, lockKey]
  · simp [unlockKey, lockKey, h2]
  · simp [sign, lockKey, h3]

/-- Witness for C5 over the concrete primitives `P0`, password "pw",
random draws [1], [2], [3], message "m" and nonce [9]. -/
theorem lock_discipline_cycle_witness :
    genState0.isLocked = false ∧
    sign P0 (lockKey genState0) "m" [9] =
      .error "The key is currently locked. Please unlock and try again." ∧
    unlockKey (lockKey genState0) "pw" = .ok { lockKey genState0 with isLocked := false } ∧
    sign P0 { lockKey genState0 with isLocked := false } "m" [9] =
      .ok (P0.c25519sign (P0.c25519gen (P0.blake2b256 [1])).2 (P0.utf8 "m") [9]) :=
  lock_discipline_cycle P0 (fun _ => none) "pw" "m" [1] [2] [3] [9] genState0
    (by decide) (by decide) (by decide) rfl

/-- C10 (amended): for every nonempty string s, constructing a Key
Manager with the bare string s as the constructor argument is the same
computation as constructing it with the parameter object
{password: s}: both run the generate path with the default crypto
parameters, and any state they produce is Unlocked with s captured as
the password.  (For s = "" the two constructions differ, see the
counterexample.) -/
theorem bare_string_password_equiv (P : Primitives)
    (files : String → Option KeyStorage) (s : String) (r1 r2 r3 : Bytes)
    (hs : s ≠ "") :
    construct P files (.str s) r1 r2 r3 =
      construct P files (.obj (some s) none none) r1 r2 r3 ∧
    ∀ st, construct P files (.str s) r1 r2 r3 = .ok st →
      st.password = s ∧ st.isLocked = false ∧ st.constants = defaultOptions := by
  constructor
  · simp only [construct]
    rw [if_neg (by simp [hs])]
    rfl
  · intro st h
    simp only [construct, generateKey] at h
    cases hd : dump P s (create P defaultOptions r1 r2 r3) defaultOptions with
    | error e =>
      rw [hd] at h
      exact Except.noConfusion h
    | ok ks =>
      rw [hd] at h
      obtain ⟨h1, h2, _, h4⟩ := initKeyStorage_ok P ks s defaultOptions st h
      exact ⟨h2, h1, h4⟩

/-- Witness for C10 at the concrete nonempty password "pw" over `P0`. -/
theorem bare_string_password_equiv_witness :
    construct P0 (fun _ => none) (.str "pw") [1] [2] [3] =
      construct P0 (fun _ => none) (.obj (some "pw") none none) [1] [2] [3] :=
  (bare_string_password_equiv P0 (fun _ => none) "pw" [1] [2] [3] (by decide)).1

/-- C10 counterexample: with the empty string the two constructions
disagree — the bare string "" bypasses the falsy-password guard
(because `params.constructor === String` short-circuits it) and
generates a key, while the object {password: ""} is rejected at
initialization. -/
theorem bare_string_password_equiv_cex :
    (construct P0 (fun _ => none) (.str "") [1] [2] [3]).isOk = true ∧
    construct P0 (fun _ => none) (.obj (some "") none none) [1] [2] [3] =
      .error "A password must be provided at initialization" := by
  exact ⟨rfl, rfl⟩

/-- C7 (amended): the record produced by `marshal` and serialized by
`exportToFile` is one JSON object with exactly two top-level fields,
publicKeyId and crypto; the crypto sub-object holds exactly cipher,
cipherText, cipherParams (carrying the iv), mac, kdf — fixed to the
scrypt identifier — and kdfSalt, with every binary field encoded as
base58 text; and a successful export writes exactly that JSON. -/
theorem marshal_record_shape (P : Primitives) (derivedKey : Bytes) (k : Keypair)
    (salt iv : Bytes) (algo : String) (record : KeyStorage)
    (h : marshal P derivedKey k salt iv algo = .ok record) :
    keyStorageToJson record =
      .obj [("publicKeyId", .str (P.b58encode k.publicKey)),
            ("crypto", .obj
              [("cipher", .str algo),
               ("cipherText", .str (P.b58encode (P.cipherEnc algo derivedKey iv k.privateKey))),
               ("cipherParams", .obj [("iv", .str (P.b58encode iv))]),
               ("mac", .str (P.b58encode
                 (getMAC P derivedKey (P.cipherEnc algo derivedKey iv k.privateKey)))),
               ("kdf", .str "scrypt"),
               ("kdfSalt", .str (P.b58encode salt))])] ∧
    ∀ (s : KMState) (now : String) (keyPathArg : Option String),
      s.isLocked = false → s.pk ≠ "" → s.keyStorage = record →
      exportToFile s now keyPathArg =
        .ok (s, keyPathArg.getD "keyfiles" ++ "/" ++ generateKeystoreFilename now s.pk,
          keyStorageToJson record) := by
  unfold marshal encrypt at h
  by_cases ha : isCipherAvailable P algo = true
  · rw [ha] at h
    simp only [Bool.not_true, Bool.false_eq_true, if_false, Except.map,
      Except.ok.injEq] at h
    constructor
    · rw [← h]
      rfl
    · intro s now keyPathArg hlock hpk hks
      unfold exportToFile getKeyStorage
      rw [hlock, if_neg (by simp), if_neg hpk, hks]
      rfl
  · rw [Bool.not_eq_true] at ha
    rw [ha] at h
    exact absurd h (by simp [Except.map])

/-- Witness for C7: the amended shape at a concrete derived key,
keypair, salt, IV and cipher over `P0`, and the export of the resulting
record from the concrete unlocked state `shapeState`. -/
theorem marshal_record_shape_witness :
    keyStorageToJson (marshalRecord P0 [1] { publicKey := [2], privateKey := [3] }
        [4] [5] "aes-256-ctr") =
      .obj [("publicKeyId", .str (P0.b58encode [2])),
            ("crypto", .obj
              [("cipher", .str "aes-256-ctr"),
               ("cipherText", .str (P0.b58encode (P0.cipherEnc "aes-256-ctr" [1] [5] [3]))),
               ("cipherParams", .obj [("iv", .str (P0.b58encode [5]))]),
               ("mac", .str (P0.b58encode
                 (getMAC P0 [1] (P0.cipherEnc "aes-256-ctr" [1] [5] [3])))),
               ("kdf", .str "scrypt"),
               ("kdfSalt", .str (P0.b58encode [4]))])] ∧
    exportToFile shapeState "t" none =
      .ok (shapeState, "keyfiles" ++ "/" ++ generateKeystoreFilename "t" shapeState.pk,
        keyStorageToJson (marshalRecord P0 [1] { publicKey := [2], privateKey := [3] }
          [4] [5] "aes-256-ctr")) :=
  ⟨(marshal_record_shape P0 [1] { publicKey := [2], privateKey := [3] } [4] [5]
      "aes-256-ctr"
      (marshalRecord P0 [1] { publicKey := [2], privateKey := [3] } [4] [5] "aes-256-ctr")
      (marshal_eq_ok P0 [1] { publicKey := [2], privateKey := [3] } [4] [5] "aes-256-ctr"
        (by decide))).1,
   (marshal_record_shape P0 [1] { publicKey := [2], privateKey := [3] } [4] [5]
      "aes-256-ctr"
      (marshalRecord P0 [1] { publicKey := [2], privateKey := [3] } [4] [5] "aes-256-ctr")
      (marshal_eq_ok P0 [1] { publicKey := [2], privateKey := [3] } [4] [5] "aes-256-ctr"
        (by decide))).2 shapeState "t" none rfl (by decide) rfl⟩

/-- C7 counterexample: the serialized object's top-level field names
are publicKeyId and crypto — not the seven flat KeystoreRecord fields
the claim lists (cipher, cipherText, cipherIv as cipherParams.iv, mac,
kdf and kdfSalt all sit nested below the crypto field). -/
theorem marshal_record_shape_cex :
    (marshal P0 [1] { publicKey := [2], privateKey := [3] } [4] [5] "aes-256-ctr").map
      (fun record => (keyStorageToJson record).keys) = .ok ["publicKeyId", "crypto"] ∧
    ["publicKeyId", "crypto"] ≠
      ["publicKeyId", "cipher", "cipherText", "cipherIv", "mac", "kdf", "kdfSalt"] := by
  exact ⟨rfl, by decide⟩
